import Mathlib

/-!
Verification of the Ouhud QR styled-code rendering engine.

This file shallowly embeds the design resolver (`src/utils/qr_design.py`)
and the claim-relevant parts of the renderer (`src/utils/qr_generator.py`)
and proves or refutes the frozen specification claims about them.

Conventions of the embedding:
* Raw, untrusted Python values handed to the resolver are modelled by the
  `Raw` type (None, str, int, bool), with Python truthiness and
  `str()` / `int()` conversions modelled explicitly.
* Machine floats are modelled by real numbers; the sRGB gamma exponent
  `** 2.4` becomes `Real.rpow`.  Functions touching reals are
  `noncomputable`; everything else is executable.
* `utils/qr_config.py` (QR_THEMES / get_qr_style) is not among the
  sources; it is modelled from the spec as an explicit theme-table
  parameter (see `Themes` below).
-/

/-- Raw Python value as it can reach `resolve_design` from a route:
`None`, a string, an int, or a bool. -/
inductive Raw where
  | none : Raw
  | str : String → Raw
  | int : Int → Raw
  | bool : Bool → Raw
deriving DecidableEq, Repr

/-- Python truthiness of a raw value (`bool(x)`). -/
def truthy : Raw → Bool
  | Raw.none => false
  | Raw.str s => s ≠ ""
  | Raw.int n => n ≠ 0
  | Raw.bool b => b

/-- Python `str(x)` on a raw value. -/
def pyStr : Raw → String
  | Raw.none => "None"
  | Raw.str s => s
  | Raw.int n => toString n
  | Raw.bool b => if b then "True" else "False"

/-- Characters stripped by Python `str.strip()` with no argument. -/
def isPyWs (c : Char) : Bool :=
  c = ' ' ∨ c = '\t' ∨ c = '\n' ∨ c = '\r' ∨ c = '\x0b' ∨ c = '\x0c'

/-- Python `str.strip()` (whitespace on both ends), on the char list. -/
def pyStripList (l : List Char) : List Char :=
  ((l.dropWhile isPyWs).reverse.dropWhile isPyWs).reverse

/-- Python `str.strip()`. -/
def pyStrip (s : String) : String :=
  String.mk (pyStripList s.data)

/-- Python `str.lower()` restricted to ASCII (all inputs of interest are ASCII). -/
def pyLower (s : String) : String :=
  String.mk (s.data.map Char.toLower)

/-- `str(x or default).strip().lower()`, the pervasive normalization idiom. -/
def normEnum (x : Raw) (dflt : String) : String :=
  pyLower (pyStrip (pyStr (if truthy x then x else Raw.str dflt)))

/-- Python `A or B` for a string already computed and a string default. -/
def pyOrS (s dflt : String) : String :=
  if s = "" then dflt else s

/-- Value of a decimal digit character, if it is one. -/
def decDigit? (c : Char) : Option Nat :=
  if '0' ≤ c ∧ c ≤ '9' then some (c.toNat - '0'.toNat) else none

/-- Value of a hexadecimal digit character, if it is one. -/
def hexDigit? (c : Char) : Option Nat :=
  if '0' ≤ c ∧ c ≤ '9' then some (c.toNat - '0'.toNat)
  else if 'a' ≤ c ∧ c ≤ 'f' then some (c.toNat - 'a'.toNat + 10)
  else if 'A' ≤ c ∧ c ≤ 'F' then some (c.toNat - 'A'.toNat + 10)
  else none

/-- Fold a digit list into a number in the given base, failing on a
non-digit; fails on the empty list. -/
def digitsVal (base : Nat) (digit? : Char → Option Nat) : List Char → Option Nat
  | [] => none
  | l => l.foldlM (fun acc c => (digit? c).map (fun d => acc * base + d)) 0

/-- Python `int(s)` / `int(s, 16)` on a string: surrounding whitespace and
one optional sign are accepted, then a nonempty run of digits. -/
def pyParseInt (base : Nat) (digit? : Char → Option Nat) (s : String) : Option Int :=
  let core := pyStripList s.data
  match core with
  | '+' :: rest => (digitsVal base digit? rest).map (fun n => (n : Int))
  | '-' :: rest => (digitsVal base digit? rest).map (fun n => -(n : Int))
  | l => (digitsVal base digit? l).map (fun n => (n : Int))

/-- Python `int(x)` on a raw value; `Except.error` models the raised
`TypeError` / `ValueError`. -/
def pyToInt : Raw → Except String Int
  | Raw.none => Except.error "TypeError"
  | Raw.bool b => Except.ok (if b then 1 else 0)
  | Raw.int n => Except.ok n
  | Raw.str s =>
    match pyParseInt 10 decDigit? s with
    | some n => Except.ok n
    | Option.none => Except.error "ValueError"

section SanityChecks

example : pyToInt (Raw.str " 42 ") = Except.ok 42 := rfl
example : pyToInt (Raw.str "abc") = Except.error "ValueError" := rfl
example : pyToInt (Raw.str "-7") = Except.ok (-7) := rfl
example : normEnum (Raw.str "  WEB ") "x" = "web" := by decide
example : normEnum Raw.none "png" = "png" := by decide

end SanityChecks

namespace QD

/-- `utils/qr_design.py` `_hex_to_rgb`: strip, remove leading `#`, expand
3-digit shorthand, parse three hex pairs, with `(13, 42, 120)` as the
fallback for malformed input. -/
def hex_to_rgb (value : String) : Int × Int × Int :=
  let raw := (pyStripList value.data).dropWhile (fun c => c = '#')
  let raw := if raw.length = 3 then raw.flatMap (fun c => [c, c]) else raw
  if raw.length ≠ 6 then (13, 42, 120)
  else
    match pyParseInt 16 hexDigit? (String.mk (raw.take 2)),
          pyParseInt 16 hexDigit? (String.mk ((raw.drop 2).take 2)),
          pyParseInt 16 hexDigit? (String.mk (raw.drop 4)) with
    | some r, some g, some b => (r, g, b)
    | _, _, _ => (13, 42, 120)

/-- sRGB gamma correction of one channel (`comp` inside
`_relative_luminance` in `qr_design.py`), over the reals. -/
noncomputable def comp (v : Int) : ℝ :=
  if (v : ℝ) / 255 ≤ 0.03928 then ((v : ℝ) / 255) / 12.92
  else (((v : ℝ) / 255 + 0.055) / 1.055) ^ (2.4 : ℝ)

/-- `qr_design.py` `_relative_luminance`. -/
noncomputable def relative_luminance (rgb : Int × Int × Int) : ℝ :=
  0.2126 * comp rgb.1 + 0.7152 * comp rgb.2.1 + 0.0722 * comp rgb.2.2

/-- `qr_design.py` `_contrast_ratio`. -/
noncomputable def contrastOf (fg bg : String) : ℝ :=
  let l1 := relative_luminance (hex_to_rgb fg)
  let l2 := relative_luminance (hex_to_rgb bg)
  let light := max l1 l2
  let dark := min l1 l2
  (light + 0.05) / (dark + 0.05)

end QD

namespace QG

/-- `utils/qr_generator.py` `_hex_to_rgb` (the renderer's own copy). -/
def hex_to_rgb (hex_color : String) : Int × Int × Int :=
  let raw := (pyStripList hex_color.data).dropWhile (fun c => c = '#')
  let raw := if raw.length = 3 then raw.flatMap (fun c => [c, c]) else raw
  if raw.length ≠ 6 then (13, 42, 120)
  else
    match pyParseInt 16 hexDigit? (String.mk (raw.take 2)),
          pyParseInt 16 hexDigit? (String.mk ((raw.drop 2).take 2)),
          pyParseInt 16 hexDigit? (String.mk (raw.drop 4)) with
    | some r, some g, some b => (r, g, b)
    | _, _, _ => (13, 42, 120)

/-- sRGB gamma correction of one channel (`conv` inside
`_relative_luminance` in `qr_generator.py`). -/
noncomputable def conv (v : Int) : ℝ :=
  if (v : ℝ) / 255 ≤ 0.03928 then ((v : ℝ) / 255) / 12.92
  else (((v : ℝ) / 255 + 0.055) / 1.055) ^ (2.4 : ℝ)

/-- `qr_generator.py` `_relative_luminance` (the renderer's own copy). -/
noncomputable def relative_luminance (rgb : Int × Int × Int) : ℝ :=
  0.2126 * conv rgb.1 + 0.7152 * conv rgb.2.1 + 0.0722 * conv rgb.2.2

/-- `qr_generator.py` `_contrast_ratio` (the renderer's own copy). -/
noncomputable def contrastOf (fg bg : String) : ℝ :=
  let l1 := relative_luminance (hex_to_rgb fg)
  let l2 := relative_luminance (hex_to_rgb bg)
  let light := max l1 l2
  let dark := min l1 l2
  (light + 0.05) / (dark + 0.05)

end QG

section HexChecks

example : QD.hex_to_rgb "#0D2A78" = (13, 42, 120) := by decide
example : QD.hex_to_rgb "#FFFFFF" = (255, 255, 255) := by decide
example : QD.hex_to_rgb "#FFFFFE" = (255, 255, 254) := by decide
example : QD.hex_to_rgb "#111111" = (17, 17, 17) := by decide
example : QD.hex_to_rgb "#000000" = (0, 0, 0) := by decide
example : QD.hex_to_rgb "#abc" = (170, 187, 204) := by decide
example : QD.hex_to_rgb "garbage" = (13, 42, 120) := by decide

end HexChecks

section CompBounds

/-- Gamma-corrected channel values are bounded above by the square of the
shifted channel, since `t ^ 2.4 ≤ t ^ 2` for `t ∈ (0, 1]`. -/
theorem QD.comp_bounds (v : Int) (hlo : ¬ ((v : ℝ) / 255 ≤ 0.03928))
    (hhi : (v : ℝ) ≤ 255) :
    0 < QD.comp v ∧ QD.comp v ≤ (((v : ℝ) / 255 + 0.055) / 1.055) ^ (2 : ℕ) := by
  have ht0 : 0 < ((v : ℝ) / 255 + 0.055) / 1.055 := by
    push_neg at hlo
    exact div_pos (by linarith) (by norm_num)
  have ht1 : ((v : ℝ) / 255 + 0.055) / 1.055 ≤ 1 := by
    rw [div_le_one (by norm_num : (0:ℝ) < 1.055)]
    nlinarith [hhi]
  constructor
  · rw [QD.comp, if_neg hlo]
    exact Real.rpow_pos_of_pos ht0 _
  · rw [QD.comp, if_neg hlo]
    have h := Real.rpow_le_rpow_of_exponent_ge ht0 ht1 (by norm_num : ((2:ℕ) : ℝ) ≤ 2.4)
    rwa [Real.rpow_natCast] at h

/-- Gamma correction maps a full channel (255) to exactly 1. -/
theorem QD.comp_255 : QD.comp 255 = 1 := by
  rw [QD.comp, if_neg (by norm_num)]
  rw [show (((255 : Int) : ℝ) / 255 + 0.055) / 1.055 = 1 by norm_num]
  exact Real.one_rpow _

/-- Gamma correction maps a zero channel to exactly 0. -/
theorem QD.comp_0 : QD.comp 0 = 0 := by
  rw [QD.comp, if_pos (by norm_num)]
  norm_num

/-- Gamma-corrected channels of in-range bytes are at most 1. -/
theorem QD.comp_le_one (v : Int) (hlo : ¬ ((v : ℝ) / 255 ≤ 0.03928))
    (hhi : (v : ℝ) ≤ 255) : QD.comp v ≤ 1 := by
  rw [QD.comp, if_neg hlo]
  refine Real.rpow_le_one ?_ ?_ (by norm_num)
  · push_neg at hlo
    exact le_of_lt (div_pos (by linarith) (by norm_num))
  · rw [div_le_one (by norm_num : (0:ℝ) < 1.055)]
    nlinarith [hhi]

end CompBounds

section LuminanceBounds

/-- Relative luminance of pure white is exactly 1 (the three WCAG weights
sum to 1). -/
theorem QD.lum_white : QD.relative_luminance (255, 255, 255) = 1 := by
  show 0.2126 * QD.comp 255 + 0.7152 * QD.comp 255 + 0.0722 * QD.comp 255 = 1
  rw [QD.comp_255]; norm_num

/-- Relative luminance of pure black is exactly 0. -/
theorem QD.lum_black : QD.relative_luminance (0, 0, 0) = 0 := by
  show 0.2126 * QD.comp 0 + 0.7152 * QD.comp 0 + 0.0722 * QD.comp 0 = 0
  rw [QD.comp_0]; norm_num

/-- Relative luminance of the brand blue `#0D2A78` = (13, 42, 120) lies in
(0, 0.06]. -/
theorem QD.lum_brand : 0 < QD.relative_luminance (13, 42, 120) ∧
    QD.relative_luminance (13, 42, 120) ≤ 0.06 := by
  obtain ⟨h13p, h13⟩ := QD.comp_bounds 13 (by norm_num) (by norm_num)
  obtain ⟨h42p, h42⟩ := QD.comp_bounds 42 (by norm_num) (by norm_num)
  obtain ⟨h120p, h120⟩ := QD.comp_bounds 120 (by norm_num) (by norm_num)
  have e13 : ((((13 : Int) : ℝ) / 255 + 0.055) / 1.055) ^ (2 : ℕ) =
      (1081 / 10761 : ℝ) ^ (2 : ℕ) := by norm_num
  have e42 : ((((42 : Int) : ℝ) / 255 + 0.055) / 1.055) ^ (2 : ℕ) =
      (747 / 3587 : ℝ) ^ (2 : ℕ) := by norm_num
  have e120 : ((((120 : Int) : ℝ) / 255 + 0.055) / 1.055) ^ (2 : ℕ) =
      (1787 / 3587 : ℝ) ^ (2 : ℕ) := by norm_num
  rw [e13] at h13; rw [e42] at h42; rw [e120] at h120
  constructor
  · show 0 < 0.2126 * QD.comp 13 + 0.7152 * QD.comp 42 + 0.0722 * QD.comp 120
    nlinarith [h13p, h42p, h120p]
  · show 0.2126 * QD.comp 13 + 0.7152 * QD.comp 42 + 0.0722 * QD.comp 120 ≤ 0.06
    nlinarith [h13, h42, h120]

/-- Relative luminance of the near-white `#FFFFFE` = (255, 255, 254) lies
in (0.9278, 1]. -/
theorem QD.lum_offwhite : 0.9278 < QD.relative_luminance (255, 255, 254) ∧
    QD.relative_luminance (255, 255, 254) ≤ 1 := by
  obtain ⟨h254p, _⟩ := QD.comp_bounds 254 (by norm_num) (by norm_num)
  have h254le := QD.comp_le_one 254 (by norm_num) (by norm_num)
  constructor
  · show 0.9278 < 0.2126 * QD.comp 255 + 0.7152 * QD.comp 255 + 0.0722 * QD.comp 254
    rw [QD.comp_255]
    nlinarith [h254p]
  · show 0.2126 * QD.comp 255 + 0.7152 * QD.comp 255 + 0.0722 * QD.comp 254 ≤ 1
    rw [QD.comp_255]
    nlinarith [h254le]

end LuminanceBounds

section ContrastFacts

/-- WCAG contrast of the fixed safe pair `#0D2A78` on `#FFFFFF` is at
least 4.5 (it is about 10.4). -/
theorem QD.contrast_brand_white : 4.5 ≤ QD.contrastOf "#0D2A78" "#FFFFFF" := by
  have hfg : QD.hex_to_rgb "#0D2A78" = (13, 42, 120) := by decide
  have hbg : QD.hex_to_rgb "#FFFFFF" = (255, 255, 255) := by decide
  obtain ⟨hbp, hb⟩ := QD.lum_brand
  rw [QD.contrastOf, hfg, hbg, QD.lum_white]
  have hmax : max (QD.relative_luminance (13, 42, 120)) 1 = 1 :=
    max_eq_right (by linarith)
  have hmin : min (QD.relative_luminance (13, 42, 120)) 1 =
      QD.relative_luminance (13, 42, 120) := min_eq_left (by linarith)
  rw [hmax, hmin, le_div_iff₀ (by linarith)]
  linarith

/-- WCAG contrast of black on white is at least 4.5 (it is exactly 21). -/
theorem QD.contrast_black_white : 4.5 ≤ QD.contrastOf "#000000" "#FFFFFF" := by
  have hfg : QD.hex_to_rgb "#000000" = (0, 0, 0) := by decide
  have hbg : QD.hex_to_rgb "#FFFFFF" = (255, 255, 255) := by decide
  rw [QD.contrastOf, hfg, hbg, QD.lum_white, QD.lum_black]
  rw [show max (0:ℝ) 1 = 1 by norm_num, show min (0:ℝ) 1 = 0 by norm_num]
  rw [le_div_iff₀ (by norm_num)]
  norm_num

/-- WCAG contrast of white on the near-white `#FFFFFE` is below 4.5 (it is
about 1.0008). -/
theorem QD.contrast_white_offwhite : QD.contrastOf "#FFFFFF" "#FFFFFE" < 4.5 := by
  have hfg : QD.hex_to_rgb "#FFFFFF" = (255, 255, 255) := by decide
  have hbg : QD.hex_to_rgb "#FFFFFE" = (255, 255, 254) := by decide
  obtain ⟨hop, hol⟩ := QD.lum_offwhite
  rw [QD.contrastOf, hfg, hbg, QD.lum_white]
  have hmax : max (1:ℝ) (QD.relative_luminance (255, 255, 254)) = 1 :=
    max_eq_left (by linarith)
  have hmin : min (1:ℝ) (QD.relative_luminance (255, 255, 254)) =
      QD.relative_luminance (255, 255, 254) := min_eq_right (by linarith)
  rw [hmax, hmin, div_lt_iff₀ (by linarith)]
  linarith

end ContrastFacts

/-- Preset export configuration entry (the values of
`PRESET_EXPORT_CONFIG` in `qr_design.py`). -/
structure PresetCfg where
  size : Int
  dpi : Int
  quiet_zone : Int
deriving DecidableEq, Repr

/-- `qr_design.py` lines 8-13: `PRESET_EXPORT_CONFIG`. -/
def PRESET_EXPORT_CONFIG : List (String × PresetCfg) :=
  [("web", ⟨600, 144, 4⟩), ("print", ⟨1200, 300, 6⟩),
   ("sticker", ⟨900, 300, 6⟩), ("poster", ⟨1800, 300, 8⟩)]

/-- The preset keys (`PRESET_EXPORT_CONFIG` dict keys). -/
def presetKeys : List String := PRESET_EXPORT_CONFIG.map Prod.fst

/-- Modelled from the spec: `utils/qr_config.py` (`QR_THEMES`,
`get_qr_style`) is not among the provided sources.  Spec §3 describes a
style as "an enum key selecting a named preset, or the sentinel `custom`",
each preset fixing foreground/background colors and optional module/eye
styles; the table of named presets is therefore modelled as an explicit
parameter: an association list of configurations plus the configuration
answered for keys outside the table (`get_qr_style` must in particular
answer for the sentinel `custom`, whose configuration supplies the
defaults for manual overrides). -/
structure ThemeConf where
  fg : String
  bg : String
  module_style : Option String
  eye_style : Option String

/-- Modelled from the spec: the theme table (`QR_THEMES`) together with
the fallback configuration for keys outside it. -/
structure Themes where
  table : List (String × ThemeConf)
  fallback : ThemeConf

/-- The style keys of the theme table (membership in `QR_THEMES`). -/
def keysOf (T : Themes) : List String := T.table.map Prod.fst

/-- Modelled from the spec: `get_qr_style(style_key)`. -/
def get_qr_style (T : Themes) (k : String) : ThemeConf :=
  (T.table.lookup k).getD T.fallback

/-- Python `a or b` where `a` is an optional string (`dict.get` result)
and `b` a string default: `None` and the empty string both fall through. -/
def pyOrOpt (o : Option String) (dflt : String) : String :=
  match o with
  | some s => if s = "" then dflt else s
  | none => dflt

/-- `qr_design.py` lines 37-43: `_normalize_size`. -/
def normalize_size (raw_size : Raw) (output_preset : String) : Int :=
  let fallback :=
    ((PRESET_EXPORT_CONFIG.lookup (pyLower (pyStrip (pyOrS output_preset "")))).getD
      ⟨600, 144, 4⟩).size
  let size :=
    match pyToInt (if truthy raw_size then raw_size else Raw.int fallback) with
    | Except.ok n => n
    | Except.error _ => fallback
  max 200 (min size 2000)

/-- Warning tags standing for the five warning strings built in lines
138-148 (the exact text of the first embeds a formatted float). -/
inductive Warn where
  | lowContrast | thinLineSmall | quietZoneSmall | floatingFrame | safeModeNote
deriving DecidableEq, Repr

/-- The resolved `QRDesign` dataclass (lines 16-34).  The float
`contrast_ratio` is modelled by the real field `contrast`; warnings are
modelled by their tags. -/
structure QRDesign where
  style : String
  fg : String
  bg : String
  module_style : String
  eye_style : String
  qr_size : Int
  output_preset : String
  export_format : String
  frame_style : String
  logo_scale : Int
  logo_bg_mode : String
  quiet_zone : Int
  dpi : Int
  contrast : ℝ
  warnings : List Warn
  safe_mode : Bool
  safe_mode_applied : Bool

/-- Line 90: `style_key = str(style or "modern").strip().lower() or
"modern"`. -/
def normalizedStyle (style : Raw) : String :=
  pyOrS (normEnum style "modern") "modern"

/-- Lines 90-92: unknown non-custom style keys fall back to `classic`. -/
def resolveStyleKey (T : Themes) (style : Raw) : String :=
  let k := normalizedStyle style
  if k ≠ "custom" ∧ k ∉ keysOf T then "classic" else k

/-- Lines 95-96: unknown output presets fall back to `web`. -/
def resolveOutput (output_preset : Raw) : String :=
  let o := normEnum output_preset "web"
  if o ∈ presetKeys then o else "web"

/-- Lines 114-115: the safe-mode flag parses to enabled only for the
truthy markers, and `None` short-circuits to disabled. -/
def safeEnabled (safe_mode : Raw) : Bool :=
  match safe_mode with
  | Raw.none => false
  | x => (["1", "true", "yes", "on"] : List String).contains (pyLower (pyStrip (pyStr x)))

/-- The local state of `resolve_design` after lines 90-113, before the
safe-mode block: style key, colors, module/eye styles, pixel size, output
preset, quiet zone and dpi. -/
structure BaseDesign where
  styleKey : String
  fg : String
  bg : String
  module : String
  eye : String
  qrPx : Int
  output : String
  quiet : Int
  dpi : Int

/-- Lines 90-113 of `resolve_design`: normalization of style, colors,
module/eye (preset-locked unless `custom`), size, quiet zone and dpi. -/
def baseDesign (T : Themes)
    (style fg_color bg_color module_style eye_style qr_size output_preset : Raw) :
    BaseDesign :=
  let style_key := resolveStyleKey T style
  let conf := get_qr_style T style_key
  let output := resolveOutput output_preset
  let preset_cfg := (PRESET_EXPORT_CONFIG.lookup output).getD ⟨600, 144, 4⟩
  { styleKey := style_key
    fg := if style_key = "custom" ∧ truthy fg_color then pyStr fg_color else conf.fg
    bg := if style_key = "custom" ∧ truthy bg_color then pyStr bg_color else conf.bg
    module := if style_key = "custom" ∧ truthy module_style then pyStr module_style
      else pyOrOpt conf.module_style "square"
    eye := if style_key = "custom" ∧ truthy eye_style then pyStr eye_style
      else pyOrOpt conf.eye_style "square"
    qrPx := normalize_size qr_size output
    output := output
    quiet := max 2 (min preset_cfg.quiet_zone 12)
    dpi := max 72 (min preset_cfg.dpi 600) }

/-- The mutable locals touched by the safe-mode block: colors, module
style, quiet zone, current contrast, and the applied flag. -/
structure SafeOut where
  fg : String
  bg : String
  module : String
  quiet : Int
  contrast : ℝ
  applied : Bool

/-- Lines 118-136: the contrast computation and the four safe-mode
correction steps, each conditioned on the state left by the previous
one. -/
noncomputable def safeSteps (b : BaseDesign) : SafeOut :=
  let c0 := QD.contrastOf b.fg b.bg
  let fg1 := if c0 < 4.5 then
      (if QD.relative_luminance (QD.hex_to_rgb b.bg) > 0.5 then "#111111" else "#FFFFFF")
    else b.fg
  let c1 := if c0 < 4.5 then QD.contrastOf fg1 b.bg else c0
  let a1 := if c0 < 4.5 then true else false
  let fg2 := if c1 < 4.5 then "#0D2A78" else fg1
  let bg2 := if c1 < 4.5 then "#FFFFFF" else b.bg
  let c2 := if c1 < 4.5 then QD.contrastOf "#0D2A78" "#FFFFFF" else c1
  let a2 := if c1 < 4.5 then true else a1
  let module3 := if b.module = "thin-line" ∧ b.qrPx < 700 then "square" else b.module
  let a3 := if b.module = "thin-line" ∧ b.qrPx < 700 then true else a2
  let quiet4 := if b.quiet < 4 then 4 else b.quiet
  let a4 := if b.quiet < 4 then true else a3
  ⟨fg2, bg2, module3, quiet4, c2, a4⟩

/-- Lines 116-136 as a whole: with safe mode disabled the colors, module
style and quiet zone pass through and only the contrast is computed. -/
noncomputable def safeResult (enabled : Bool) (b : BaseDesign) : SafeOut :=
  if enabled then safeSteps b
  else ⟨b.fg, b.bg, b.module, b.quiet, QD.contrastOf b.fg b.bg, false⟩

/-- Lines 138-148: warning collection, evaluated on the final values. -/
noncomputable def resolveWarnings (s : SafeOut) (b : BaseDesign)
    (frame_style : Raw) (enabled : Bool) : List Warn :=
  (if s.contrast < 4.5 then [Warn.lowContrast] else []) ++
  (if s.module = "thin-line" ∧ b.qrPx < 700 then [Warn.thinLineSmall] else []) ++
  (if s.quiet < 4 then [Warn.quietZoneSmall] else []) ++
  (if normEnum frame_style "none" = "floating" then [Warn.floatingFrame] else []) ++
  (if enabled && s.applied then [Warn.safeModeNote] else [])

/-- Lines 150-168: assembly of the resolved design; `ls` is the already
parsed value of `int(logo_scale or 20)`. -/
noncomputable def assembleDesign (T : Themes)
    (style fg_color bg_color module_style eye_style qr_size output_preset
     export_format frame_style logo_bg_mode safe_mode : Raw) (ls : Int) :
    QRDesign :=
  let b := baseDesign T style fg_color bg_color module_style eye_style qr_size output_preset
  let enabled := safeEnabled safe_mode
  let s := safeResult enabled b
  let exportF := normEnum export_format "png"
  { style := b.styleKey
    fg := s.fg
    bg := s.bg
    module_style := s.module
    eye_style := b.eye
    qr_size := b.qrPx
    output_preset := b.output
    export_format := if exportF ∈ (["png", "svg", "pdf", "zip"] : List String)
      then exportF else "png"
    frame_style := normEnum frame_style "none"
    logo_scale := max 8 (min ls 20)
    logo_bg_mode := normEnum logo_bg_mode "auto-white"
    quiet_zone := s.quiet
    dpi := b.dpi
    contrast := s.contrast
    warnings := resolveWarnings s b frame_style enabled
    safe_mode := enabled
    safe_mode_applied := s.applied }

/-- `qr_design.py` lines 75-169: `resolve_design`.  The result is
`Except.error` exactly when Python raises, which happens only for
`int(logo_scale or 20)` on an unparseable truthy value (line 160 has no
try/except around it, unlike `_normalize_size`). -/
noncomputable def resolve_design (T : Themes)
    (style fg_color bg_color module_style eye_style qr_size output_preset
     export_format frame_style logo_scale logo_bg_mode safe_mode : Raw) :
    Except String QRDesign :=
  match pyToInt (if truthy logo_scale then logo_scale else Raw.int 20) with
  | Except.error e => Except.error e
  | Except.ok ls =>
    Except.ok (assembleDesign T style fg_color bg_color module_style eye_style
      qr_size output_preset export_format frame_style logo_bg_mode safe_mode ls)

/-- A sample theme table instantiating the spec-modelled `Themes` in
witnesses and counterexamples: black-on-white, square-module presets
(contrast exactly 21). -/
def bwConf : ThemeConf := ⟨"#000000", "#FFFFFF", some "square", some "square"⟩

/-- Sample table with `classic` and `modern` presets and `bwConf` as the
fallback configuration. -/
def sampleThemes : Themes := ⟨[("classic", bwConf), ("modern", bwConf)], bwConf⟩

section ResolverChecks

example : resolveStyleKey sampleThemes (Raw.str "classic") = "classic" := by decide
example : resolveStyleKey sampleThemes (Raw.str "  CuStom ") = "custom" := by decide
example : resolveStyleKey sampleThemes (Raw.str "no-such-style") = "classic" := by decide
example : resolveStyleKey sampleThemes Raw.none = "modern" := by decide
example : resolveOutput (Raw.str "poster") = "poster" := by decide
example : resolveOutput (Raw.str "journal") = "web" := by decide
example : safeEnabled (Raw.str " TRUE ") = true := by decide
example : safeEnabled (Raw.str "false") = false := by decide
example : safeEnabled Raw.none = false := by decide
example : normalize_size (Raw.str "50") "web" = 200 := by decide
example : normalize_size (Raw.str "junk") "poster" = 1800 := by decide
example : normalize_size Raw.none "print" = 1200 := by decide

end ResolverChecks

/-- `qr_generator.py` lines 37-47, `_build_qr`: the border (quiet zone)
actually passed to the encoder, `max(2, min(int(quiet_zone or 4), 12))`
for an integer argument (`0` is falsy and becomes the default `4`); the
matrix encoding itself is a library call and is not modelled. -/
def build_qr_border (quiet_zone : Int) : Int :=
  max 2 (min (if quiet_zone = 0 then 4 else quiet_zone) 12)

/-- Filesystem interactions performed by the rendering path. -/
inductive FsEffect where
  | existsCheck (p : String)
  | readFile (p : String)
  | mkdirParents (p : String)
  | writeFile (p : String)
deriving DecidableEq, Repr

/-- Filesystem interactions of `_apply_logo` (lines 142-199): nothing
when the path is falsy; otherwise an existence check, plus a read when
the file exists (`fsExists` abstracts the state of the disk; a decode
failure skips only the logo, after the read). -/
def apply_logo_fx (fsExists : String → Bool) (logo_path : Option String) : List FsEffect :=
  match logo_path with
  | none => []
  | some p =>
    if p = "" then []
    else if fsExists p then [FsEffect.existsCheck p, FsEffect.readFile p]
    else [FsEffect.existsCheck p]

/-- `generate_qr_png` line 445: `filename or f"qr_{int(time.time())}.png"`
(`now` is the clock reading). -/
def outFilename (filename : Option String) (now : Int) : String :=
  match filename with
  | some f => if f = "" then "qr_" ++ toString now ++ ".png" else f
  | none => "qr_" ++ toString now ++ ".png"

/-- Filesystem interactions of `generate_qr_png` (lines 371-485): the
logo interactions of `_apply_logo`, then the unconditional
`output_dir.mkdir(parents=True, exist_ok=True)` of line 444 and the
unconditional `img.save(file_path)` of line 452.  The in-memory PNG, SVG
and PDF encodings touch no files. -/
def generate_qr_png_fx (fsExists : String → Bool) (logo_path : Option String)
    (filename : Option String) (now : Int) : List FsEffect :=
  apply_logo_fx fsExists logo_path ++
  [FsEffect.mkdirParents "static/generated_qr",
   FsEffect.writeFile ("static/generated_qr/" ++ outFilename filename now)]

/-- Drawing primitives issued by `_draw_eye_overlays` on the module
image (PIL `rounded_rectangle` / `ellipse` calls, by bounding box). -/
inductive DrawCmd where
  | roundedRectOutline (x0 y0 x1 y1 radius width : Int) (color : String)
  | roundedRectFill (x0 y0 x1 y1 radius : Int) (color : String)
  | ellipseOutline (x0 y0 x1 y1 width : Int) (color : String)
  | ellipseFill (x0 y0 x1 y1 : Int) (color : String)
deriving DecidableEq, Repr

/-- The shape group drawn for one eye at origin `(ox, oy)`
(`_draw_eye_overlays` lines 83-110); unrecognized styles draw nothing. -/
def eyeShapesAt (style fg bg : String) (module_px eye_px ox oy : Int) : List DrawCmd :=
  let inset_outer := max 1 module_px
  let inset_inner := max 2 (2 * module_px)
  let o0 := ox; let o1 := oy; let o2 := ox + eye_px; let o3 := oy + eye_px
  let m0 := ox + inset_outer; let m1 := oy + inset_outer
  let m2 := ox + eye_px - inset_outer; let m3 := oy + eye_px - inset_outer
  let i0 := ox + inset_inner; let i1 := oy + inset_inner
  let i2 := ox + eye_px - inset_inner; let i3 := oy + eye_px - inset_inner
  if style = "rounded" then
    let radius := max 6 (module_px * 2)
    [DrawCmd.roundedRectOutline o0 o1 o2 o3 radius (max 2 module_px) fg,
     DrawCmd.roundedRectFill m0 m1 m2 m3 (max 4 (radius - module_px)) bg,
     DrawCmd.roundedRectFill i0 i1 i2 i3 (max 3 (radius - 2 * module_px)) fg]
  else if style = "ring" then
    [DrawCmd.ellipseOutline o0 o1 o2 o3 (max 2 module_px) fg,
     DrawCmd.ellipseFill m0 m1 m2 m3 bg,
     DrawCmd.ellipseFill i0 i1 i2 i3 fg]
  else if style = "target" then
    [DrawCmd.roundedRectOutline o0 o1 o2 o3 (max 4 module_px) (max 2 module_px) fg,
     DrawCmd.roundedRectFill m0 m1 m2 m3 (max 3 module_px) bg,
     DrawCmd.ellipseFill i0 i1 i2 i3 fg]
  else if style = "dots" then
    let cx := Int.fdiv (i0 + i2) 2
    let cy := Int.fdiv (i1 + i3) 2
    let r := max 2 module_px
    [DrawCmd.roundedRectOutline o0 o1 o2 o3 (max 4 module_px) (max 2 module_px) fg,
     DrawCmd.roundedRectFill m0 m1 m2 m3 (max 3 module_px) bg,
     DrawCmd.ellipseFill (cx - r) (cy - r) (cx + r) (cy + r) fg]
  else []

/-- `_draw_eye_overlays` (lines 62-110): the draw commands issued for the
three finder-pattern corners, offset by the border, at
`module_px = max(1, img.width // matrix_size)`. -/
def draw_eye_overlays (imgWidth matrixSize border : Int) (fg bg eye_style : String) :
    List DrawCmd :=
  let style := pyLower (pyStrip (pyOrS eye_style "square"))
  if style = "" ∨ style = "square" then []
  else if matrixSize ≤ 0 then []
  else
    let module_px := max 1 (Int.fdiv imgWidth matrixSize)
    let eye_px := 7 * module_px
    let origins := [(border * module_px, border * module_px),
      ((matrixSize - border - 7) * module_px, border * module_px),
      (border * module_px, (matrixSize - border - 7) * module_px)]
    origins.flatMap (fun o => eyeShapesAt style fg bg module_px eye_px o.1 o.2)

/-- SVG elements emitted for eye overlays (rect/circle with optional
stroke; `stroke = ""` and width 0 stand for an unstroked fill, and
`fill = "none"` mirrors the literal attribute of the source markup). -/
inductive SvgShape where
  | rect (x y w h rx ry : Int) (fill stroke : String) (strokeWidth : Int)
  | circle (cx cy r : Int) (fill stroke : String) (strokeWidth : Int)
deriving DecidableEq, Repr

/-- `_svg_eye_overlay` (lines 246-278): the nested shapes of one eye
overlay; note the function DOES implement a `dots` branch. -/
def svg_eye_overlay (style : String) (x y s : Int) (fg bg : String) : List SvgShape :=
  if style = "rounded" then
    let r := max 3 (Int.fdiv s 6)
    [SvgShape.rect x y s s r r "none" fg 2,
     SvgShape.rect (x + Int.fdiv s 6) (y + Int.fdiv s 6) (Int.fdiv (s * 2) 3)
       (Int.fdiv (s * 2) 3) (max 2 (Int.fdiv r 2)) (max 2 (Int.fdiv r 2)) bg "" 0,
     SvgShape.rect (x + Int.fdiv s 3) (y + Int.fdiv s 3) (Int.fdiv s 3) (Int.fdiv s 3)
       (max 2 (Int.fdiv r 3)) (max 2 (Int.fdiv r 3)) fg "" 0]
  else if style = "ring" then
    let c := x + Int.fdiv s 2
    let r := Int.fdiv s 2
    [SvgShape.circle c (y + r) r "none" fg 2,
     SvgShape.circle c (y + r) (Int.fdiv (r * 2) 3) bg "" 0,
     SvgShape.circle c (y + r) (max 2 (Int.fdiv r 3)) fg "" 0]
  else if style = "target" then
    let c := x + Int.fdiv s 2
    let r := Int.fdiv s 2
    [SvgShape.rect x y s s 6 6 "none" fg 2,
     SvgShape.circle c (y + r) (Int.fdiv (r * 2) 3) bg "" 0,
     SvgShape.circle c (y + r) (max 2 (Int.fdiv r 3)) fg "" 0]
  else if style = "dots" then
    let c := x + Int.fdiv s 2
    let r := Int.fdiv s 2
    [SvgShape.rect x y s s 6 6 "none" fg 2,
     SvgShape.rect (x + Int.fdiv s 6) (y + Int.fdiv s 6) (Int.fdiv (s * 2) 3)
       (Int.fdiv (s * 2) 3) 4 4 bg "" 0,
     SvgShape.circle c (y + r) (max 2 (Int.fdiv r 3)) fg "" 0]
  else []

/-- The eye-overlay portion of `_generate_svg_bytes` (lines 334-343): the
gate admits only `rounded`, `ring` and `target` — `dots` is absent from
the set — and the three origins are the finder corners offset by the
border and the fixed 12-pixel pad. -/
def svg_eye_section (n border cell pad : Int) (eye_style fg bg : String) : List SvgShape :=
  let eye := pyLower (pyStrip (pyOrS eye_style "square"))
  if eye = "rounded" ∨ eye = "ring" ∨ eye = "target" then
    let eye_px := cell * 7
    let origins := [(pad + border * cell, pad + border * cell),
      (pad + (n - border - 7) * cell, pad + border * cell),
      (pad + border * cell, pad + (n - border - 7) * cell)]
    origins.flatMap (fun o => svg_eye_overlay eye o.1 o.2 eye_px fg bg)
  else []

section SafeStepLemmas

/-- After the safe-mode steps the current contrast is at least 4.5: either
step 2 fired and installed the fixed pair, or the check found it high. -/
theorem safeSteps_contrast_ge (b : BaseDesign) : 4.5 ≤ (safeSteps b).contrast := by
  simp only [safeSteps]
  split_ifs with h1 h2 h3 h4 <;>
    first
      | exact QD.contrast_brand_white
      | linarith [not_lt.mp (by assumption : ¬ _ < (4.5:ℝ))]

/-- If the initial contrast is low, step 1 fires and the applied flag
stays set through the remaining steps. -/
theorem safeSteps_applied_of_low (b : BaseDesign)
    (h : QD.contrastOf b.fg b.bg < 4.5) : (safeSteps b).applied = true := by
  simp only [safeSteps]
  split_ifs <;> rfl

/-- Step 3: a thin-line module at a small size is downgraded to square and
sets the applied flag. -/
theorem safeSteps_thinline (b : BaseDesign)
    (h : b.module = "thin-line" ∧ b.qrPx < 700) :
    (safeSteps b).module = "square" ∧ (safeSteps b).applied = true := by
  simp only [safeSteps]
  split_ifs <;> exact ⟨rfl, rfl⟩

/-- Step 4 leaves the quiet zone at 4 or more. -/
theorem safeSteps_quiet_ge (b : BaseDesign) : 4 ≤ (safeSteps b).quiet := by
  simp only [safeSteps]
  split_ifs with h <;> omega

/-- Step 4 never lowers a quiet zone that is already at least 4. -/
theorem safeSteps_quiet_of_ge (b : BaseDesign) (h : 4 ≤ b.quiet) :
    (safeSteps b).quiet = b.quiet := by
  simp only [safeSteps]
  rw [if_neg (by omega)]

/-- When no risk is present — high contrast, no small thin-line modules,
quiet zone at least 4 — the safe-mode block is the identity and the
applied flag stays false. -/
theorem safeSteps_noop (b : BaseDesign)
    (hc : 4.5 ≤ QD.contrastOf b.fg b.bg)
    (hm : ¬ (b.module = "thin-line" ∧ b.qrPx < 700))
    (hq : 4 ≤ b.quiet) :
    safeSteps b = ⟨b.fg, b.bg, b.module, b.quiet, QD.contrastOf b.fg b.bg, false⟩ := by
  have hc' : ¬ (QD.contrastOf b.fg b.bg < 4.5) := not_lt.mpr hc
  have hq' : ¬ (b.quiet < 4) := by omega
  simp only [safeSteps, if_neg hc', if_neg hm, if_neg hq']

/-- The colors left by high initial contrast are the base colors. -/
theorem safeSteps_colors_of_highc (b : BaseDesign)
    (hc : 4.5 ≤ QD.contrastOf b.fg b.bg) :
    (safeSteps b).fg = b.fg ∧ (safeSteps b).bg = b.bg := by
  have hc' : ¬ (QD.contrastOf b.fg b.bg < 4.5) := not_lt.mpr hc
  simp only [safeSteps, if_neg hc']
  constructor <;> trivial

/-- The module style left by the steps when it is not thin-line. -/
theorem safeSteps_module_of (b : BaseDesign) (hm : b.module ≠ "thin-line") :
    (safeSteps b).module = b.module := by
  simp only [safeSteps]
  rw [if_neg (by exact fun h => hm h.1)]

end SafeStepLemmas

section BaseLemmas

/-- The base quiet zone is the preset's, clamped into [2, 12]. -/
theorem baseDesign_quiet_bounds (T : Themes)
    (style fg_color bg_color module_style eye_style qr_size output_preset : Raw) :
    2 ≤ (baseDesign T style fg_color bg_color module_style eye_style qr_size
      output_preset).quiet ∧
    (baseDesign T style fg_color bg_color module_style eye_style qr_size
      output_preset).quiet ≤ 12 := by
  refine ⟨le_max_left _ _, max_le (by norm_num) (min_le_right _ _)⟩

/-- The base dpi is the preset's, clamped into [72, 600]. -/
theorem baseDesign_dpi_bounds (T : Themes)
    (style fg_color bg_color module_style eye_style qr_size output_preset : Raw) :
    72 ≤ (baseDesign T style fg_color bg_color module_style eye_style qr_size
      output_preset).dpi ∧
    (baseDesign T style fg_color bg_color module_style eye_style qr_size
      output_preset).dpi ≤ 600 := by
  refine ⟨le_max_left _ _, max_le (by norm_num) (min_le_right _ _)⟩

/-- `_normalize_size` clamps every input into [200, 2000]. -/
theorem normalize_size_bounds (raw_size : Raw) (output_preset : String) :
    200 ≤ normalize_size raw_size output_preset ∧
    normalize_size raw_size output_preset ≤ 2000 := by
  refine ⟨le_max_left _ _, max_le (by norm_num) (min_le_right _ _)⟩

end BaseLemmas

section SafeResultLemmas

/-- The quiet zone survives the safe pass whenever it is already ≥ 4. -/
theorem safeResult_quiet_of_ge (e : Bool) (b : BaseDesign) (h : 4 ≤ b.quiet) :
    (safeResult e b).quiet = b.quiet := by
  cases e
  · rfl
  · exact safeSteps_quiet_of_ge b h

/-- The safe pass keeps the quiet zone inside the resolver's [2, 12]
bounds. -/
theorem safeResult_quiet_bounds (e : Bool) (b : BaseDesign)
    (h2 : 2 ≤ b.quiet) (h12 : b.quiet ≤ 12) :
    2 ≤ (safeResult e b).quiet ∧ (safeResult e b).quiet ≤ 12 := by
  cases e
  · exact ⟨h2, h12⟩
  · show 2 ≤ (safeSteps b).quiet ∧ (safeSteps b).quiet ≤ 12
    simp only [safeSteps]
    split_ifs <;> omega

end SafeResultLemmas

section OutputLemmas

/-- `resolveOutput` can only answer the four preset keys. -/
theorem resolveOutput_cases (o : Raw) :
    resolveOutput o = "web" ∨ resolveOutput o = "print" ∨
    resolveOutput o = "sticker" ∨ resolveOutput o = "poster" := by
  simp only [resolveOutput]
  split_ifs with h
  · simp only [presetKeys, PRESET_EXPORT_CONFIG, List.map_cons, List.map_nil,
      List.mem_cons, List.not_mem_nil, or_false] at h
    tauto
  · left; rfl

end OutputLemmas

/-- Projections of the assembled design, in terms of the base state and
the safe pass (all definitional). -/
theorem assembleDesign_fields (T : Themes)
    (style fg_color bg_color module_style eye_style qr_size output_preset
     export_format frame_style logo_bg_mode safe_mode : Raw) (ls : Int) :
    (assembleDesign T style fg_color bg_color module_style eye_style qr_size
        output_preset export_format frame_style logo_bg_mode safe_mode ls).style =
      (baseDesign T style fg_color bg_color module_style eye_style qr_size
        output_preset).styleKey ∧
    (assembleDesign T style fg_color bg_color module_style eye_style qr_size
        output_preset export_format frame_style logo_bg_mode safe_mode ls).fg =
      (safeResult (safeEnabled safe_mode)
        (baseDesign T style fg_color bg_color module_style eye_style qr_size
          output_preset)).fg ∧
    (assembleDesign T style fg_color bg_color module_style eye_style qr_size
        output_preset export_format frame_style logo_bg_mode safe_mode ls).bg =
      (safeResult (safeEnabled safe_mode)
        (baseDesign T style fg_color bg_color module_style eye_style qr_size
          output_preset)).bg ∧
    (assembleDesign T style fg_color bg_color module_style eye_style qr_size
        output_preset export_format frame_style logo_bg_mode safe_mode ls).module_style =
      (safeResult (safeEnabled safe_mode)
        (baseDesign T style fg_color bg_color module_style eye_style qr_size
          output_preset)).module ∧
    (assembleDesign T style fg_color bg_color module_style eye_style qr_size
        output_preset export_format frame_style logo_bg_mode safe_mode ls).eye_style =
      (baseDesign T style fg_color bg_color module_style eye_style qr_size
        output_preset).eye ∧
    (assembleDesign T style fg_color bg_color module_style eye_style qr_size
        output_preset export_format frame_style logo_bg_mode safe_mode ls).quiet_zone =
      (safeResult (safeEnabled safe_mode)
        (baseDesign T style fg_color bg_color module_style eye_style qr_size
          output_preset)).quiet ∧
    (assembleDesign T style fg_color bg_color module_style eye_style qr_size
        output_preset export_format frame_style logo_bg_mode safe_mode ls).contrast =
      (safeResult (safeEnabled safe_mode)
        (baseDesign T style fg_color bg_color module_style eye_style qr_size
          output_preset)).contrast ∧
    (assembleDesign T style fg_color bg_color module_style eye_style qr_size
        output_preset export_format frame_style logo_bg_mode safe_mode ls).safe_mode_applied =
      (safeResult (safeEnabled safe_mode)
        (baseDesign T style fg_color bg_color module_style eye_style qr_size
          output_preset)).applied :=
  ⟨rfl, rfl, rfl, rfl, rfl, rfl, rfl, rfl⟩

section ResolverClaims

variable (T : Themes)
variable (style fg_color bg_color module_style eye_style qr_size output_preset
  export_format frame_style logo_scale logo_bg_mode safe_mode : Raw)

/-- C9: for every pair of color strings, the Design Resolver's contrast
computation (`qr_design._contrast_ratio`) and the Raster Compositor's
independently implemented one (`qr_generator._contrast_ratio`) return
equal values, with identical hex-parsing fallback, identical sRGB gamma
correction, identical luminance weights and identical ratio. -/
theorem c9_contrast_implementations_agree :
    (∀ s : String, QD.hex_to_rgb s = QG.hex_to_rgb s) ∧
    (∀ v : Int, QD.comp v = QG.conv v) ∧
    (∀ rgb : Int × Int × Int, QD.relative_luminance rgb = QG.relative_luminance rgb) ∧
    (∀ fg bg : String, QD.contrastOf fg bg = QG.contrastOf fg bg) :=
  ⟨fun _ => rfl, fun _ => rfl, fun _ => rfl, fun _ _ => rfl⟩

/-- C2: every Design returned by `resolve_design` satisfies all four
numeric invariants simultaneously — 200 ≤ qr_size ≤ 2000, 2 ≤ quiet_zone
≤ 12, 72 ≤ dpi ≤ 600 and 8 ≤ logo_scale ≤ 20 — for all raw caller
inputs, including out-of-range, zero, negative and missing values. -/
theorem c2_numeric_invariants :
    match resolve_design T style fg_color bg_color module_style eye_style qr_size
      output_preset export_format frame_style logo_scale logo_bg_mode safe_mode with
    | Except.ok d =>
        (200 ≤ d.qr_size ∧ d.qr_size ≤ 2000) ∧
        (2 ≤ d.quiet_zone ∧ d.quiet_zone ≤ 12) ∧
        (72 ≤ d.dpi ∧ d.dpi ≤ 600) ∧
        (8 ≤ d.logo_scale ∧ d.logo_scale ≤ 20)
    | Except.error _ => True := by
  unfold resolve_design
  cases hp : pyToInt (if truthy logo_scale then logo_scale else Raw.int 20) with
  | error e => exact trivial
  | ok ls =>
    refine ⟨?_, ?_, ?_, ?_⟩
    · exact normalize_size_bounds qr_size (resolveOutput output_preset)
    · obtain ⟨h2, h12⟩ := baseDesign_quiet_bounds T style fg_color bg_color
        module_style eye_style qr_size output_preset
      exact safeResult_quiet_bounds (safeEnabled safe_mode) _ h2 h12
    · exact baseDesign_dpi_bounds T style fg_color bg_color module_style eye_style
        qr_size output_preset
    · exact ⟨le_max_left _ _, max_le (by norm_num) (min_le_right _ _)⟩

/-- C10: the resolved quiet zone and dpi are functions of the output
preset alone — `resolve_design` takes no quiet-zone or dpi argument — and
their value is (4, 144) for `web`, (6, 300) for `print` and `sticker`,
and (8, 300) for `poster`; the safe-mode raise-to-4 step never changes
them because every preset's quiet zone is already ≥ 4. -/
theorem c10_quiet_dpi_functions_of_preset :
    match resolve_design T style fg_color bg_color module_style eye_style qr_size
      output_preset export_format frame_style logo_scale logo_bg_mode safe_mode with
    | Except.ok d =>
        (d.output_preset = "web" ∧ d.quiet_zone = 4 ∧ d.dpi = 144) ∨
        (d.output_preset = "print" ∧ d.quiet_zone = 6 ∧ d.dpi = 300) ∨
        (d.output_preset = "sticker" ∧ d.quiet_zone = 6 ∧ d.dpi = 300) ∨
        (d.output_preset = "poster" ∧ d.quiet_zone = 8 ∧ d.dpi = 300)
    | Except.error _ => True := by
  unfold resolve_design
  cases hp : pyToInt (if truthy logo_scale then logo_scale else Raw.int 20) with
  | error e => exact trivial
  | ok ls =>
    set b := baseDesign T style fg_color bg_color module_style eye_style qr_size
      output_preset with hb
    rcases resolveOutput_cases output_preset with h | h | h | h
    · refine Or.inl ⟨h, ?_, ?_⟩
      · have hq : b.quiet = 4 := by
          rw [hb]; simp only [baseDesign]; rw [h]; decide
        rw [show (assembleDesign T style fg_color bg_color module_style eye_style
          qr_size output_preset export_format frame_style logo_bg_mode safe_mode
          ls).quiet_zone = (safeResult (safeEnabled safe_mode) b).quiet from rfl,
          safeResult_quiet_of_ge _ _ (by omega), hq]
      · rw [show (assembleDesign T style fg_color bg_color module_style eye_style
          qr_size output_preset export_format frame_style logo_bg_mode safe_mode
          ls).dpi = b.dpi from rfl, hb]
        simp only [baseDesign]; rw [h]; decide
    · refine Or.inr (Or.inl ⟨h, ?_, ?_⟩)
      · have hq : b.quiet = 6 := by
          rw [hb]; simp only [baseDesign]; rw [h]; decide
        rw [show (assembleDesign T style fg_color bg_color module_style eye_style
          qr_size output_preset export_format frame_style logo_bg_mode safe_mode
          ls).quiet_zone = (safeResult (safeEnabled safe_mode) b).quiet from rfl,
          safeResult_quiet_of_ge _ _ (by omega), hq]
      · rw [show (assembleDesign T style fg_color bg_color module_style eye_style
          qr_size output_preset export_format frame_style logo_bg_mode safe_mode
          ls).dpi = b.dpi from rfl, hb]
        simp only [baseDesign]; rw [h]; decide
    · refine Or.inr (Or.inr (Or.inl ⟨h, ?_, ?_⟩))
      · have hq : b.quiet = 6 := by
          rw [hb]; simp only [baseDesign]; rw [h]; decide
        rw [show (assembleDesign T style fg_color bg_color module_style eye_style
          qr_size output_preset export_format frame_style logo_bg_mode safe_mode
          ls).quiet_zone = (safeResult (safeEnabled safe_mode) b).quiet from rfl,
          safeResult_quiet_of_ge _ _ (by omega), hq]
      · rw [show (assembleDesign T style fg_color bg_color module_style eye_style
          qr_size output_preset export_format frame_style logo_bg_mode safe_mode
          ls).dpi = b.dpi from rfl, hb]
        simp only [baseDesign]; rw [h]; decide
    · refine Or.inr (Or.inr (Or.inr ⟨h, ?_, ?_⟩))
      · have hq : b.quiet = 8 := by
          rw [hb]; simp only [baseDesign]; rw [h]; decide
        rw [show (assembleDesign T style fg_color bg_color module_style eye_style
          qr_size output_preset export_format frame_style logo_bg_mode safe_mode
          ls).quiet_zone = (safeResult (safeEnabled safe_mode) b).quiet from rfl,
          safeResult_quiet_of_ge _ _ (by omega), hq]
      · rw [show (assembleDesign T style fg_color bg_color module_style eye_style
          qr_size output_preset export_format frame_style logo_bg_mode safe_mode
          ls).dpi = b.dpi from rfl, hb]
        simp only [baseDesign]; rw [h]; decide

end ResolverClaims

section SampleThemeLemmas

/-- Every configuration the sample table answers is `bwConf`. -/
theorem sampleThemes_get (k : String) : get_qr_style sampleThemes k = bwConf := by
  unfold get_qr_style sampleThemes
  rcases h1 : k == "classic" with _ | _ <;>
    rcases h2 : k == "modern" with _ | _ <;>
      simp [List.lookup, h1, h2]

end SampleThemeLemmas

/-- The spec-side property of the (spec-modelled) theme table — presets
stay inside their "tested-safe parameter space" (spec §3): every
configuration the table can answer has contrast at least 4.5 and does
not select thin-line modules. -/
def SafeThemes (T : Themes) : Prop :=
  ∀ k : String,
    4.5 ≤ QD.contrastOf (get_qr_style T k).fg (get_qr_style T k).bg ∧
    pyOrOpt (get_qr_style T k).module_style "square" ≠ "thin-line"

/-- The sample black-on-white table is tested-safe. -/
theorem sampleThemes_safe : SafeThemes sampleThemes := by
  intro k
  rw [sampleThemes_get k]
  exact ⟨QD.contrast_black_white, by decide⟩

/-- For a non-custom style key the base state takes foreground,
background, module and eye from the preset, ignoring the caller
arguments. -/
theorem baseDesign_noncustom (T : Themes)
    (style fg_color bg_color module_style eye_style qr_size output_preset : Raw)
    (hnc : resolveStyleKey T style ≠ "custom") :
    (baseDesign T style fg_color bg_color module_style eye_style qr_size
        output_preset).fg = (get_qr_style T (resolveStyleKey T style)).fg ∧
    (baseDesign T style fg_color bg_color module_style eye_style qr_size
        output_preset).bg = (get_qr_style T (resolveStyleKey T style)).bg ∧
    (baseDesign T style fg_color bg_color module_style eye_style qr_size
        output_preset).module =
      pyOrOpt (get_qr_style T (resolveStyleKey T style)).module_style "square" ∧
    (baseDesign T style fg_color bg_color module_style eye_style qr_size
        output_preset).eye =
      pyOrOpt (get_qr_style T (resolveStyleKey T style)).eye_style "square" := by
  simp only [baseDesign]
  refine ⟨?_, ?_, ?_, ?_⟩ <;> rw [if_neg (fun hh => hnc hh.1)]

set_option maxHeartbeats 1600000 in
/-- C1: for every call of the resolver with a non-custom style key, over
any tested-safe theme table, the resolved foreground, background,
module_style and eye_style equal the preset's fixed values, regardless of
the caller-supplied fg_color, bg_color, module_style and eye_style
overrides (and of every other argument). -/
theorem c1_preset_locked (T : Themes) (hT : SafeThemes T)
    (style fg_color bg_color module_style eye_style qr_size output_preset
     export_format frame_style logo_scale logo_bg_mode safe_mode : Raw)
    (hnc : resolveStyleKey T style ≠ "custom") :
    match resolve_design T style fg_color bg_color module_style eye_style qr_size
      output_preset export_format frame_style logo_scale logo_bg_mode safe_mode with
    | Except.ok d =>
        d.fg = (get_qr_style T (resolveStyleKey T style)).fg ∧
        d.bg = (get_qr_style T (resolveStyleKey T style)).bg ∧
        d.module_style =
          pyOrOpt (get_qr_style T (resolveStyleKey T style)).module_style "square" ∧
        d.eye_style =
          pyOrOpt (get_qr_style T (resolveStyleKey T style)).eye_style "square"
    | Except.error _ => True := by
  unfold resolve_design
  cases hp : pyToInt (if truthy logo_scale then logo_scale else Raw.int 20) with
  | error e => exact trivial
  | ok ls =>
    obtain ⟨hfg, hbg, hmod, heye⟩ := baseDesign_noncustom T style fg_color bg_color
      module_style eye_style qr_size output_preset hnc
    obtain ⟨hc, hm⟩ := hT (resolveStyleKey T style)
    set b := baseDesign T style fg_color bg_color module_style eye_style qr_size
      output_preset with hb
    have hcb : 4.5 ≤ QD.contrastOf b.fg b.bg := by rw [hfg, hbg]; exact hc
    have hmb : b.module ≠ "thin-line" := by rw [hmod]; exact hm
    refine ⟨?_, ?_, ?_, ?_⟩
    · show (safeResult (safeEnabled safe_mode) b).fg = _
      cases safeEnabled safe_mode
      · exact hfg
      · rw [show (safeResult true b).fg = (safeSteps b).fg from rfl,
          (safeSteps_colors_of_highc b hcb).1]
        exact hfg
    · show (safeResult (safeEnabled safe_mode) b).bg = _
      cases safeEnabled safe_mode
      · exact hbg
      · rw [show (safeResult true b).bg = (safeSteps b).bg from rfl,
          (safeSteps_colors_of_highc b hcb).2]
        exact hbg
    · show (safeResult (safeEnabled safe_mode) b).module = _
      cases safeEnabled safe_mode
      · exact hmod
      · rw [show (safeResult true b).module = (safeSteps b).module from rfl,
          safeSteps_module_of b hmb]
        exact hmod
    · exact heye

/-- Witness for C1 (Scenario A): on the sample table, style `classic`
with caller-supplied fg_color `#FF0000` resolves to the classic preset's
foreground, not red. -/
theorem c1_preset_locked_witness :
    SafeThemes sampleThemes ∧
    resolveStyleKey sampleThemes (Raw.str "classic") ≠ "custom" ∧
    match resolve_design sampleThemes (Raw.str "classic") (Raw.str "#FF0000")
      Raw.none Raw.none Raw.none Raw.none Raw.none Raw.none Raw.none Raw.none
      Raw.none Raw.none with
    | Except.ok d =>
        d.fg = (get_qr_style sampleThemes
          (resolveStyleKey sampleThemes (Raw.str "classic"))).fg ∧
        d.bg = (get_qr_style sampleThemes
          (resolveStyleKey sampleThemes (Raw.str "classic"))).bg ∧
        d.module_style = pyOrOpt (get_qr_style sampleThemes
          (resolveStyleKey sampleThemes (Raw.str "classic"))).module_style "square" ∧
        d.eye_style = pyOrOpt (get_qr_style sampleThemes
          (resolveStyleKey sampleThemes (Raw.str "classic"))).eye_style "square"
    | Except.error _ => True :=
  ⟨sampleThemes_safe, by decide,
    c1_preset_locked sampleThemes sampleThemes_safe (Raw.str "classic")
      (Raw.str "#FF0000") Raw.none Raw.none Raw.none Raw.none Raw.none Raw.none
      Raw.none Raw.none Raw.none Raw.none (by decide)⟩

set_option maxHeartbeats 1600000 in
/-- C3: when safe mode is requested, the resolver's four correction steps
(contrast flip, fixed-pair fallback, thin-line downgrade, quiet-zone
raise), each firing only if its risk persists, guarantee: the final
contrast is at least 4.5; an initially low-contrast pair sets
safe_mode_applied; a thin-line module below 700 px resolves to square
with safe_mode_applied; the final quiet zone is at least 4; and when no
risk is present nothing changes and safe_mode_applied stays false. -/
theorem c3_safe_mode_policy (T : Themes)
    (style fg_color bg_color module_style eye_style qr_size output_preset
     export_format frame_style logo_scale logo_bg_mode safe_mode : Raw)
    (hsafe : safeEnabled safe_mode = true) :
    match resolve_design T style fg_color bg_color module_style eye_style qr_size
      output_preset export_format frame_style logo_scale logo_bg_mode safe_mode with
    | Except.ok d =>
        4.5 ≤ d.contrast ∧
        (QD.contrastOf
            (baseDesign T style fg_color bg_color module_style eye_style qr_size
              output_preset).fg
            (baseDesign T style fg_color bg_color module_style eye_style qr_size
              output_preset).bg < 4.5 →
          d.safe_mode_applied = true) ∧
        ((baseDesign T style fg_color bg_color module_style eye_style qr_size
            output_preset).module = "thin-line" ∧
         (baseDesign T style fg_color bg_color module_style eye_style qr_size
            output_preset).qrPx < 700 →
          d.module_style = "square" ∧ d.safe_mode_applied = true) ∧
        4 ≤ d.quiet_zone ∧
        (4.5 ≤ QD.contrastOf
            (baseDesign T style fg_color bg_color module_style eye_style qr_size
              output_preset).fg
            (baseDesign T style fg_color bg_color module_style eye_style qr_size
              output_preset).bg ∧
         ¬ ((baseDesign T style fg_color bg_color module_style eye_style qr_size
              output_preset).module = "thin-line" ∧
            (baseDesign T style fg_color bg_color module_style eye_style qr_size
              output_preset).qrPx < 700) ∧
         4 ≤ (baseDesign T style fg_color bg_color module_style eye_style qr_size
              output_preset).quiet →
          d.fg = (baseDesign T style fg_color bg_color module_style eye_style
            qr_size output_preset).fg ∧
          d.bg = (baseDesign T style fg_color bg_color module_style eye_style
            qr_size output_preset).bg ∧
          d.module_style = (baseDesign T style fg_color bg_color module_style
            eye_style qr_size output_preset).module ∧
          d.quiet_zone = (baseDesign T style fg_color bg_color module_style
            eye_style qr_size output_preset).quiet ∧
          d.safe_mode_applied = false)
    | Except.error _ => True := by
  unfold resolve_design
  cases hp : pyToInt (if truthy logo_scale then logo_scale else Raw.int 20) with
  | error e => exact trivial
  | ok ls =>
    set b := baseDesign T style fg_color bg_color module_style eye_style qr_size
      output_preset with hb
    refine ⟨?_, ?_, ?_, ?_, ?_⟩
    · show 4.5 ≤ (safeResult (safeEnabled safe_mode) b).contrast
      rw [hsafe]
      exact safeSteps_contrast_ge b
    · intro hlow
      show (safeResult (safeEnabled safe_mode) b).applied = true
      rw [hsafe]
      exact safeSteps_applied_of_low b hlow
    · intro hml
      constructor
      · show (safeResult (safeEnabled safe_mode) b).module = "square"
        rw [hsafe]
        exact (safeSteps_thinline b hml).1
      · show (safeResult (safeEnabled safe_mode) b).applied = true
        rw [hsafe]
        exact (safeSteps_thinline b hml).2
    · show 4 ≤ (safeResult (safeEnabled safe_mode) b).quiet
      rw [hsafe]
      exact safeSteps_quiet_ge b
    · rintro ⟨hc, hm, hq⟩
      have hnoop := safeSteps_noop b hc hm hq
      refine ⟨?_, ?_, ?_, ?_, ?_⟩
      · show (safeResult (safeEnabled safe_mode) b).fg = b.fg
        rw [hsafe, show safeResult true b = safeSteps b from rfl, hnoop]
      · show (safeResult (safeEnabled safe_mode) b).bg = b.bg
        rw [hsafe, show safeResult true b = safeSteps b from rfl, hnoop]
      · show (safeResult (safeEnabled safe_mode) b).module = b.module
        rw [hsafe, show safeResult true b = safeSteps b from rfl, hnoop]
      · show (safeResult (safeEnabled safe_mode) b).quiet = b.quiet
        rw [hsafe, show safeResult true b = safeSteps b from rfl, hnoop]
      · show (safeResult (safeEnabled safe_mode) b).applied = false
        rw [hsafe, show safeResult true b = safeSteps b from rfl, hnoop]

/-- Witness for C3 (Scenario B): style `custom` with fg `#FFFFFF` on bg
`#FFFFFE` (near-zero contrast) and safe_mode `true` resolves with
contrast at least 4.5 and safe_mode_applied set. -/
theorem c3_safe_mode_policy_witness :
    safeEnabled (Raw.str "true") = true ∧
    match resolve_design sampleThemes (Raw.str "custom") (Raw.str "#FFFFFF")
      (Raw.str "#FFFFFE") Raw.none Raw.none Raw.none Raw.none Raw.none Raw.none
      Raw.none Raw.none (Raw.str "true") with
    | Except.ok d => 4.5 ≤ d.contrast ∧ d.safe_mode_applied = true
    | Except.error _ => True := by
  have h := c3_safe_mode_policy sampleThemes (Raw.str "custom") (Raw.str "#FFFFFF")
    (Raw.str "#FFFFFE") Raw.none Raw.none Raw.none Raw.none Raw.none Raw.none
    Raw.none Raw.none (Raw.str "true") (by decide)
  obtain ⟨h1, h2, _, _, _⟩ := h
  refine ⟨by decide, h1, ?_⟩
  apply h2
  have hfg : (baseDesign sampleThemes (Raw.str "custom") (Raw.str "#FFFFFF")
      (Raw.str "#FFFFFE") Raw.none Raw.none Raw.none Raw.none).fg = "#FFFFFF" := by
    decide
  have hbg : (baseDesign sampleThemes (Raw.str "custom") (Raw.str "#FFFFFF")
      (Raw.str "#FFFFFE") Raw.none Raw.none Raw.none Raw.none).bg = "#FFFFFE" := by
    decide
  rw [hfg, hbg]
  exact QD.contrast_white_offwhite

/-- C4: contrary to the never-raises contract, an unparseable truthy
`logo_scale` makes `resolve_design` raise `ValueError` from
`int(logo_scale or 20)` (line 160 has no try/except) instead of falling
back to the default 20 — while the same input for `qr_size` does fall
back to the preset size via `_normalize_size`'s try/except. -/
theorem c4_logo_scale_raises :
    resolve_design sampleThemes (Raw.str "classic") Raw.none Raw.none Raw.none
      Raw.none Raw.none Raw.none Raw.none Raw.none (Raw.str "abc") Raw.none
      Raw.none = Except.error "ValueError" ∧
    normalize_size (Raw.str "abc") "web" = 600 :=
  ⟨rfl, by decide⟩

/-- Counterexample to C5: an unrecognized non-empty module_style,
eye_style (under style `custom`) or frame_style (under any style) is kept
verbatim in the resolved design rather than falling back to
square/square/none. -/
theorem c5_counterexample :
    resolve_design sampleThemes (Raw.str "custom") Raw.none Raw.none
      (Raw.str "blob") (Raw.str "weird") Raw.none Raw.none Raw.none
      (Raw.str "wavy") Raw.none Raw.none Raw.none =
      Except.ok (assembleDesign sampleThemes (Raw.str "custom") Raw.none Raw.none
        (Raw.str "blob") (Raw.str "weird") Raw.none Raw.none Raw.none
        (Raw.str "wavy") Raw.none Raw.none 20) ∧
    (assembleDesign sampleThemes (Raw.str "custom") Raw.none Raw.none
      (Raw.str "blob") (Raw.str "weird") Raw.none Raw.none Raw.none
      (Raw.str "wavy") Raw.none Raw.none 20).module_style = "blob" ∧
    (assembleDesign sampleThemes (Raw.str "custom") Raw.none Raw.none
      (Raw.str "blob") (Raw.str "weird") Raw.none Raw.none Raw.none
      (Raw.str "wavy") Raw.none Raw.none 20).eye_style = "weird" ∧
    (assembleDesign sampleThemes (Raw.str "custom") Raw.none Raw.none
      (Raw.str "blob") (Raw.str "weird") Raw.none Raw.none Raw.none
      (Raw.str "wavy") Raw.none Raw.none 20).frame_style = "wavy" := by
  refine ⟨rfl, ?_, ?_, ?_⟩ <;> decide

set_option maxHeartbeats 800000 in
/-- C5 (amended): unknown style resolves to `classic`, unknown
output_preset to `web` and unknown export_format to `png`; module_style
and eye_style fall back to `square` only when absent or empty — under
style `custom` an unrecognized non-empty value is kept verbatim, and
for non-custom styles the preset's value is used — and frame_style keeps
the caller's normalized string, falling back to `none` only when
absent. -/
theorem c5_enum_fallbacks (T : Themes)
    (style fg_color bg_color module_style eye_style qr_size output_preset
     export_format frame_style logo_scale logo_bg_mode safe_mode : Raw)
    (h1 : normalizedStyle style ∉ keysOf T)
    (h2 : normalizedStyle style ≠ "custom")
    (h3 : normEnum output_preset "web" ∉ presetKeys)
    (h4 : normEnum export_format "png" ∉ (["png", "svg", "pdf", "zip"] : List String)) :
    match resolve_design T style fg_color bg_color module_style eye_style qr_size
      output_preset export_format frame_style logo_scale logo_bg_mode safe_mode with
    | Except.ok d =>
        d.style = "classic" ∧ d.output_preset = "web" ∧ d.export_format = "png" ∧
        d.frame_style = normEnum frame_style "none"
    | Except.error _ => True := by
  unfold resolve_design
  cases hp : pyToInt (if truthy logo_scale then logo_scale else Raw.int 20) with
  | error e => exact trivial
  | ok ls =>
    refine ⟨?_, ?_, ?_, rfl⟩
    · show resolveStyleKey T style = "classic"
      simp only [resolveStyleKey]
      rw [if_pos ⟨h2, h1⟩]
    · show resolveOutput output_preset = "web"
      simp only [resolveOutput]
      rw [if_neg h3]
    · show (if normEnum export_format "png" ∈ (["png", "svg", "pdf", "zip"] : List String)
        then normEnum export_format "png" else "png") = "png"
      rw [if_neg h4]

/-- Witness for the amended C5: concrete unknown enum inputs resolve to
the documented defaults while the unknown frame string is kept. -/
theorem c5_enum_fallbacks_witness :
    normalizedStyle (Raw.str "nope") ∉ keysOf sampleThemes ∧
    normalizedStyle (Raw.str "nope") ≠ "custom" ∧
    normEnum (Raw.str "journal") "web" ∉ presetKeys ∧
    normEnum (Raw.str "bmp") "png" ∉ (["png", "svg", "pdf", "zip"] : List String) ∧
    match resolve_design sampleThemes (Raw.str "nope") Raw.none Raw.none Raw.none
      Raw.none Raw.none (Raw.str "journal") (Raw.str "bmp") (Raw.str "WAVY")
      Raw.none Raw.none Raw.none with
    | Except.ok d =>
        d.style = "classic" ∧ d.output_preset = "web" ∧ d.export_format = "png" ∧
        d.frame_style = normEnum (Raw.str "WAVY") "none"
    | Except.error _ => True :=
  ⟨by decide, by decide, by decide, by decide,
    c5_enum_fallbacks sampleThemes (Raw.str "nope") Raw.none Raw.none Raw.none
      Raw.none Raw.none (Raw.str "journal") (Raw.str "bmp") (Raw.str "WAVY")
      Raw.none Raw.none Raw.none (by decide) (by decide) (by decide) (by decide)⟩

/-- Counterexample to C6: at a concrete input the render call's effect
trace is exactly a directory creation plus a file write — it is not
free of filesystem side effects. -/
theorem c6_counterexample :
    generate_qr_png_fx (fun _ => false) Option.none (some "out.png") 0 =
      [FsEffect.mkdirParents "static/generated_qr",
       FsEffect.writeFile "static/generated_qr/out.png"] ∧
    generate_qr_png_fx (fun _ => false) Option.none (some "out.png") 0 ≠ [] := by
  decide

/-- C6 (amended): `generate_qr_png` takes all configuration as explicit
parameters and returns bytes, but on every call — whatever the inputs —
it creates the `static/generated_qr` directory and writes the rendered
PNG into it as part of rendering; callers then write further copies
themselves. -/
theorem c6_render_effects (fsExists : String → Bool)
    (logo_path filename : Option String) (now : Int) :
    FsEffect.mkdirParents "static/generated_qr" ∈
      generate_qr_png_fx fsExists logo_path filename now ∧
    FsEffect.writeFile ("static/generated_qr/" ++ outFilename filename now) ∈
      generate_qr_png_fx fsExists logo_path filename now := by
  unfold generate_qr_png_fx
  constructor
  · exact List.mem_append_right _ (by simp)
  · exact List.mem_append_right _ (by simp)

/-- C7: the SVG compositor omits the `dots` eye overlay that the raster
compositor draws.  At matrix size 33, border 4, cell 10 (pad 12, image
width 330): the raster path issues the dots overlay commands and
`_svg_eye_overlay` implements the dots shapes, but the SVG dispatch
(`eye in {"rounded", "ring", "target"}`) emits nothing for `dots`,
while e.g. `ring` yields the three nested shapes at all three finder
corners. -/
theorem c7_svg_dots_missing :
    svg_eye_section 33 4 10 12 "dots" "#0D2A78" "#FFFFFF" = [] ∧
    draw_eye_overlays 330 33 4 "#0D2A78" "#FFFFFF" "dots" ≠ [] ∧
    svg_eye_overlay "dots" 52 52 70 "#0D2A78" "#FFFFFF" ≠ [] ∧
    (svg_eye_section 33 4 10 12 "ring" "#0D2A78" "#FFFFFF").length = 9 := by
  decide

/-- Counterexample to C8: a requested quiet zone of 0 reaches `_build_qr`
where `int(quiet_zone or 4)` treats it as absent, so the border becomes
4, never the claimed resolver floor of 2. -/
theorem c8_counterexample :
    build_qr_border 0 = 4 ∧ build_qr_border 0 ≠ 2 := by decide

/-- Every base design's quiet zone is at least 4, since every output
preset's quiet zone is. -/
theorem baseDesign_quiet_ge4 (T : Themes)
    (style fg_color bg_color module_style eye_style qr_size output_preset : Raw) :
    4 ≤ (baseDesign T style fg_color bg_color module_style eye_style qr_size
      output_preset).quiet := by
  rcases resolveOutput_cases output_preset with h | h | h | h <;>
    (simp only [baseDesign]; rw [h]; decide)

/-- C8 (amended): the renderer clamps the requested quiet zone into
[2, 12], treating 0 as absent and defaulting it to 4; `resolve_design`
accepts no quiet-zone request at all, and every resolved quiet zone comes
from the output preset and is at least 4 already, so the safe-mode raise
to 4 leaves it unchanged. -/
theorem c8_quiet_zone_amended :
    (∀ qz : Int, 2 ≤ build_qr_border qz ∧ build_qr_border qz ≤ 12) ∧
    build_qr_border 0 = 4 ∧
    (∀ (T : Themes) (style fg_color bg_color module_style eye_style qr_size
        output_preset export_format frame_style logo_scale logo_bg_mode
        safe_mode : Raw),
      match resolve_design T style fg_color bg_color module_style eye_style qr_size
        output_preset export_format frame_style logo_scale logo_bg_mode safe_mode with
      | Except.ok d => 4 ≤ d.quiet_zone
      | Except.error _ => True) := by
  refine ⟨?_, by decide, ?_⟩
  · intro qz
    exact ⟨le_max_left _ _, max_le (by norm_num) (min_le_right _ _)⟩
  · intro T style fg_color bg_color module_style eye_style qr_size output_preset
      export_format frame_style logo_scale logo_bg_mode safe_mode
    unfold resolve_design
    cases hp : pyToInt (if truthy logo_scale then logo_scale else Raw.int 20) with
    | error e => exact trivial
    | ok ls =>
      show 4 ≤ (safeResult (safeEnabled safe_mode)
        (baseDesign T style fg_color bg_color module_style eye_style qr_size
          output_preset)).quiet
      cases safeEnabled safe_mode
      · exact baseDesign_quiet_ge4 T style fg_color bg_color module_style
          eye_style qr_size output_preset
      · exact safeSteps_quiet_ge _
